import Mathlib

/-!
Verification development for the PTY session engine in `src/terminal.c`
(furios-terminal). We shallowly embed the multiplex loop of `tty_thread`,
the interrupt delivery of `run_kill_child_pids`, and the console setup of
`ul_terminal_prepare_current_terminal` as pure Lean functions over explicit
state, and prove the specified properties about them.

Modelling conventions:
- C strings are `List Char` (NUL-free text up to the terminator); `strlen`
  is `List.length`, `strcmp` equality is list equality, `memcpy` of a
  length-`n` head is `List.take n`.
- The mutable globals read and written by the loop body
  (`entered_command`, `tmp_length`, `term_needs_update`, `terminal_buffer`,
  `command_buffer`, `command_buffer_length`, `command_buffer_pos`,
  `command_ready_to_send`, `sig_int_sent`) form the state `TtyState`.
- Per-iteration external inputs (poll revents, the bytes produced by
  `read`, the result of the `pgrep -P` child enumeration) form `LoopInput`.
- `int copySize = strlen(terminal_buffer) - strlen(entered_command)` is
  modelled as integer subtraction over `Int`: the `size_t` difference wraps
  and its conversion to `int` recovers the signed mathematical difference
  for all lengths below 2^31, which holds since both strings live in the
  fixed `BUFFER_SIZE` array.
-/

/-- State of the mutable variables used by the `tty_thread` multiplex loop
in `src/terminal.c` (statics plus the thread-locals that persist across
iterations: `entered_command`, `tmp_length`). -/
structure TtyState where
  /-- `entered_command` (`char*`, NULL ↔ `none`): copy of the last sent command. -/
  enteredCommand : Option (List Char)
  /-- `tmp_length`: byte length recorded when the last command was sent. -/
  tmpLength : Nat
  /-- `term_needs_update`: the OutputBuffer dirty flag. -/
  termNeedsUpdate : Bool
  /-- `terminal_buffer`: the shared output staging buffer, as a C string. -/
  terminalBuffer : List Char
  /-- `command_ready_to_send`. -/
  commandReady : Bool
  /-- NUL-free text content of `command_buffer`. -/
  commandBuffer : List Char
  /-- `command_buffer_length`. -/
  commandBufferLength : Nat
  /-- `command_buffer_pos`. -/
  commandBufferPos : Nat
  /-- `sig_int_sent`: the InterruptRequest flag. -/
  sigIntSent : Bool
deriving DecidableEq

/-- Per-iteration inputs from the outside world: `poll` readiness bits on
the PTY master, the bytes a successful `read` yields, and the pids printed
by `pgrep -P <pid>` (`none` when `popen` fails, in which case
`run_kill_child_pids` returns without signalling anyone). -/
structure LoopInput where
  pollin : Bool
  pollout : Bool
  readData : List Char
  children : Option (List Int)
deriving DecidableEq

/-- Modelled from the spec: `remove_escape_codes` lives in `termstr.c`,
which is not among the sources under review. Per spec §4.2 it removes
terminal control/escape sequences from a NUL-terminated buffer in place,
and strips an unterminated trailing sequence to end-of-buffer. We model it
as a left fold that, outside a sequence, drops the escape introducer
(byte 27) and switches into sequence-skipping state; inside a sequence it
drops bytes until a final byte in the range 0x40–0x7E other than the CSI
opener. On plain text it is the identity. One step of that fold: -/
def stripStep : (Bool × List Char) → Char → (Bool × List Char)
  | (true, acc), c =>
      if 0x40 ≤ c.toNat ∧ c.toNat ≤ 0x7E ∧ c ≠ '[' then (false, acc) else (true, acc)
  | (false, acc), c =>
      if c.toNat = 27 then (true, acc) else (false, c :: acc)

/-- Modelled from the spec: see `stripStep`. -/
def remove_escape_codes (s : List Char) : List Char :=
  ((s.foldl stripStep (false, [])).2).reverse

/-- The echo-suppression branch of the read cycle
(`src/terminal.c:177-185`), parameterised by the stripper: strip the
buffer, compute `copySize = strlen(stripped) - strlen(entered)` (as `Int`,
see header note), and when `copySize - 2 > 0` shift the tail
`stripped + strlen(entered)` to the front and set the dirty flag; otherwise
leave the (now stripped) buffer unpublished. Returns the resulting buffer
contents and whether the flag was set by this branch. -/
def echoSuppress (strip : List Char → List Char) (c : List Char) (data : List Char) :
    List Char × Bool :=
  let stripped := strip data
  let copySize : Int := (stripped.length : Int) - (c.length : Int)
  if copySize - 2 > 0 then (stripped.drop c.length, true) else (stripped, false)

/-- End-of-read-cycle discard of the echo window
(`src/terminal.c:186-189`): `entered_command` is freed and nulled only when
it is non-NULL and `strlen(entered_command) > 0`. -/
def discardEcho : Option (List Char) → Option (List Char)
  | some c => if 0 < c.length then none else some c
  | none => none

/-- One read cycle of the multiplex loop (`src/terminal.c:165-194`), taken
when `POLLIN` is set and `term_needs_update` is false. `data` is what
`read` deposited in `terminal_buffer`. `cut_terminal` is rebuilt from the
first `tmp_length` bytes when `tmp_length != 0` (the copied NUL makes
`List.take`'s saturation match C-string semantics). The first branch
(genuine output) fires when `entered_command == NULL || cut_terminal ==
NULL || strlen(entered_command) == 0 || strcmp(...) != 0`; otherwise the
echo-suppression branch runs. Finally the echo window is discarded. -/
def readCycle (strip : List Char → List Char) (s : TtyState) (data : List Char) : TtyState :=
  let cut : Option (List Char) :=
    if s.tmpLength ≠ 0 then some (data.take s.tmpLength) else none
  let s1 :=
    match s.enteredCommand, cut with
    | some c, some k =>
        if c.length = 0 ∨ c ≠ k then
          { s with terminalBuffer := data, termNeedsUpdate := true }
        else
          let r := echoSuppress strip c data
          { s with terminalBuffer := r.1, termNeedsUpdate := s.termNeedsUpdate || r.2 }
    | _, _ => { s with terminalBuffer := data, termNeedsUpdate := true }
  { s1 with enteredCommand := discardEcho s1.enteredCommand }

/-- The command-send branch (`src/terminal.c:195-206`): flush the command
buffer to the PTY, clear the ready flag and write cursor, copy the first
`command_buffer_length` bytes into `entered_command` (C-string semantics:
`List.take` saturates exactly like the copied NUL terminator does), zero
the command buffer, move the length into `tmp_length`, and reset it. -/
def sendCycle (s : TtyState) : TtyState :=
  { s with
      commandReady := false
      commandBufferPos := 0
      enteredCommand := some (s.commandBuffer.take s.commandBufferLength)
      commandBuffer := []
      tmpLength := s.commandBufferLength
      commandBufferLength := 0 }

/-- Observable actions of one loop iteration, in program order. `clearFlag`
would be the controller setting `term_needs_update` to false; `terminal.c`
contains no such assignment, so no constructor of the iteration ever emits
it. -/
inductive LoopEvent where
  | killChild (p : Int)
  | killShell
  | clearInterrupt
  | readOutput
  | publishOutput
  | writeCommand
  | clearFlag
deriving DecidableEq

/-- Events emitted by the interrupt block (`src/terminal.c:158-163`):
`run_kill_child_pids` signals each pid printed by `pgrep -P` (none when
`popen` fails), then the shell itself is signalled and the request flag is
cleared. -/
def interruptEvents (children : Option (List Int)) : List LoopEvent :=
  (match children with
   | some cs => cs.map LoopEvent.killChild
   | none => []) ++ [LoopEvent.killShell, LoopEvent.clearInterrupt]

/-- The read/write if-chain of the loop body (`src/terminal.c:165-206`):
`if (revents & POLLIN) && !term_needs_update` run a read cycle, `else if
(revents & POLLOUT) && command_ready_to_send` send the staged command.
Returns the next state and this part's events; a `publishOutput` event
marks the read cycle leaving the dirty flag set. -/
def loopBranch (strip : List Char → List Char) (si : TtyState) (inp : LoopInput) :
    TtyState × List LoopEvent :=
  if inp.pollin && !si.termNeedsUpdate then
    let s2 := readCycle strip si inp.readData
    (s2, [LoopEvent.readOutput] ++
         (if s2.termNeedsUpdate then [LoopEvent.publishOutput] else []))
  else if inp.pollout && si.commandReady then
    (sendCycle si, [LoopEvent.writeCommand])
  else (si, [])

/-- One full iteration of the multiplex loop body (`src/terminal.c:152-208`):
interrupt handling first (when `sig_int_sent` is set: signal the children,
signal the shell, clear the flag), then the read/write if-chain. The trace
lists observable events in program order. -/
def loopIter (strip : List Char → List Char) (s : TtyState) (inp : LoopInput) :
    TtyState × List LoopEvent :=
  let si := if s.sigIntSent then { s with sigIntSent := false } else s
  let evs := if s.sigIntSent then interruptEvents inp.children else []
  let r := loopBranch strip si inp
  (r.1, evs ++ r.2)

/-- Terminal geometry computed in `tty_thread` (`src/terminal.c:137-138`):
`ws_col = width / 8`, `ws_row = height / 16`, each stored into the
`unsigned short` fields of `struct winsize` (hence the reduction mod
2^16). -/
def ttyWinsize (width height : Nat) : Nat × Nat :=
  ((width / 8) % 65536, (height / 16) % 65536)

/-- The claim's genuine-output condition, written from its own words: there
is no outstanding EchoWindow, or its text is empty, or the leading
`length(EchoWindow)` bytes of the read data do not equal the EchoWindow
text. (`readCycle` instead compares against the first `tmp_length` bytes;
the claim theorem bridges the two.) -/
def genuineCondB (entered : Option (List Char)) (data : List Char) : Bool :=
  match entered with
  | none => true
  | some c => c.isEmpty || decide (data.take c.length ≠ c)

/-- Success/failure outcomes of the system calls made while preparing the
terminal. The first six are consulted by
`ul_terminal_prepare_current_terminal` (`src/terminal.c:217-266`) in
program order. `forkptyOk` is the outcome of the `forkpty` call performed
later, on the spawned thread (`src/terminal.c:139`); the prepare function
never observes it, because it returns as soon as `pthread_create`
succeeds. -/
structure PrepareEnv where
  openOk : Bool
  kdgkbmodeOk : Bool
  kdskbmodeOk : Bool
  kdgetmodeOk : Bool
  kdsetmodeOk : Bool
  pthreadCreateOk : Bool
  forkptyOk : Bool
deriving DecidableEq

/-- The console state that the preparation ioctls mutate: the keyboard mode
and the display mode of `/dev/tty0`. Values follow `linux/kd.h`. -/
structure ConsoleState where
  kbMode : Nat
  dispMode : Nat
deriving DecidableEq

/-- `K_OFF` from `linux/kd.h`. -/
def K_OFF : Nat := 4

/-- `K_UNICODE` from `linux/kd.h`. -/
def K_UNICODE : Nat := 3

/-- `KD_GRAPHICS` from `linux/kd.h`. -/
def KD_GRAPHICS : Nat := 1

/-- `ul_terminal_prepare_current_terminal` (`src/terminal.c:217-266`):
reopen `/dev/tty0`, save the keyboard mode (`KDGKBMODE`), switch the
keyboard mode to `K_OFF` (`KDSKBMODE`), save the display mode
(`KDGETMODE`), switch to graphics mode (`KDSETMODE`), then create the TTY
thread. Each failing step returns false immediately, leaving whatever
console state the earlier successful steps produced; true is returned once
`pthread_create` succeeds. The `forkpty`/fork outcome plays no part. -/
def prepareRun (env : PrepareEnv) (st : ConsoleState) : Bool × ConsoleState :=
  if !env.openOk then (false, st)
  else if !env.kdgkbmodeOk then (false, st)
  else if !env.kdskbmodeOk then (false, st)
  else
    let st1 : ConsoleState := { st with kbMode := K_OFF }
    if !env.kdgetmodeOk then (false, st1)
    else if !env.kdsetmodeOk then (false, st1)
    else
      let st2 : ConsoleState := { st1 with dispMode := KD_GRAPHICS }
      if !env.pthreadCreateOk then (false, st2)
      else (true, st2)

/-- Claim C8: `prepare(256, 512)` with the fixed 8×16 glyph cell yields a
terminal geometry of exactly 32 columns and 32 rows. -/
theorem c8_geometry : ttyWinsize 256 512 = (32, 32) := by decide

/-- Claim C1: in a read cycle (entered with the dirty flag false, and with
`tmp_length` consistent with the outstanding command, as every send leaves
it), the full read data is forwarded and the dirty flag set exactly under
the claim's condition — no outstanding EchoWindow, empty EchoWindow text,
or a leading-bytes mismatch — and otherwise the echo-suppression branch
runs. -/
theorem c1_genuine_output_decision (strip : List Char → List Char) (s : TtyState)
    (data : List Char)
    (hflag : s.termNeedsUpdate = false)
    (hlen : ∀ c, s.enteredCommand = some c → s.tmpLength = c.length) :
    (genuineCondB s.enteredCommand data = true →
      (readCycle strip s data).terminalBuffer = data ∧
      (readCycle strip s data).termNeedsUpdate = true) ∧
    (genuineCondB s.enteredCommand data = false →
      ∃ c, s.enteredCommand = some c ∧
        (readCycle strip s data).terminalBuffer = (echoSuppress strip c data).1 ∧
        (readCycle strip s data).termNeedsUpdate = (echoSuppress strip c data).2) := by
  cases he : s.enteredCommand with
  | none =>
      refine ⟨fun _ => ?_, fun hg => ?_⟩
      · constructor <;> simp [readCycle, he]
      · simp [genuineCondB, he] at hg
  | some c =>
      have hlen' : s.tmpLength = c.length := hlen c he
      by_cases hc : c = []
      · subst hc
        have h0 : s.tmpLength = 0 := by simpa using hlen'
        refine ⟨fun _ => ?_, fun hg => ?_⟩
        · constructor <;> simp [readCycle, he, h0]
        · simp [genuineCondB, he] at hg
      · have hcl : c.length ≠ 0 := fun h => hc (List.eq_nil_of_length_eq_zero h)
        by_cases hm : data.take c.length = c
        · refine ⟨fun hg => ?_, fun _ => ⟨c, rfl, ?_, ?_⟩⟩
          · exfalso
            simp [genuineCondB, he, hm, hc] at hg
          · simp [readCycle, he, hlen', hcl, hm, hc]
          · simp [readCycle, he, hlen', hcl, hm, hc, hflag]
        · refine ⟨fun _ => ?_, fun hg => ?_⟩
          · have hm' : c ≠ data.take c.length := fun h => hm h.symm
            constructor <;> simp [readCycle, he, hlen', hcl, hm']
          · exfalso
            simp [genuineCondB, he, hc, hm] at hg

/-- Claim C1 witness: concrete read cycle with no outstanding EchoWindow. -/
theorem c1_genuine_output_decision_witness :
    (readCycle remove_escape_codes
      ⟨none, 0, false, [], false, [], 0, 0, false⟩ ['o', 'k']).terminalBuffer = ['o', 'k'] ∧
    (readCycle remove_escape_codes
      ⟨none, 0, false, [], false, [], 0, 0, false⟩ ['o', 'k']).termNeedsUpdate = true :=
  (c1_genuine_output_decision remove_escape_codes
    ⟨none, 0, false, [], false, [], 0, 0, false⟩ ['o', 'k'] rfl
    (fun c h => nomatch h)).1 (by decide)

/-- The `Int` threshold test of `echoSuppress` restated over `Nat`:
the branch publishes exactly when the stripped buffer is more than two
characters longer than the echoed command. -/
lemma echoSuppress_spec (strip : List Char → List Char) (c data : List Char) :
    echoSuppress strip c data =
      if c.length + 2 < (strip data).length
      then ((strip data).drop c.length, true) else (strip data, false) := by
  have hiff : ((0 : Int) < ((strip data).length : Int) - (c.length : Int) - 2) ↔
      c.length + 2 < (strip data).length := by omega
  simp only [echoSuppress, gt_iff_lt, hiff]

/-- Reduction of `readCycle` in the echo-suppression case: the outstanding
command is non-empty and equal to the `tmp_length`-byte head of the read
data, so the `strcmp` test routes to the suppression branch, and the echo
window is then discarded. -/
lemma readCycle_echo (strip : List Char → List Char) (s : TtyState) (data c : List Char)
    (hflag : s.termNeedsUpdate = false)
    (he : s.enteredCommand = some c) (hc : c ≠ [])
    (hcut : s.tmpLength ≠ 0) (hmatch : data.take s.tmpLength = c) :
    readCycle strip s data =
      { s with terminalBuffer := (echoSuppress strip c data).1,
               termNeedsUpdate := (echoSuppress strip c data).2,
               enteredCommand := none } := by
  have hcl : 0 < c.length := List.length_pos.mpr hc
  simp [readCycle, he, hcut, hmatch, hc, hflag, discardEcho, hcl]

/-- Claim C2 counterexample: command `ls` echoed back as `lsx` leaves a
non-empty one-character remainder after removing the leading echo, yet the
read cycle does not set the dirty flag (the remainder is below the
threshold), contradicting "the flag is set exactly when non-empty content
remains". -/
theorem c2_counterexample :
    (remove_escape_codes ['l', 's', 'x']).drop 2 ≠ [] ∧
    (readCycle remove_escape_codes
      ⟨some ['l', 's'], 2, false, [], false, [], 0, 0, false⟩
      ['l', 's', 'x']).termNeedsUpdate = false := by decide

/-- Claim C2 as amended: in the echo branch, the buffer is stripped, the
leading `length(EchoWindow)` characters are removed, and the remainder is
forwarded with the dirty flag set exactly when MORE THAN TWO characters
remain after the removal; with two or fewer remaining characters nothing is
published and the buffer merely holds the stripped text. The echo window is
discarded either way. -/
theorem c2_echo_branch_amended (strip : List Char → List Char) (s : TtyState)
    (data c : List Char)
    (hflag : s.termNeedsUpdate = false)
    (he : s.enteredCommand = some c) (hc : c ≠ [])
    (hcut : s.tmpLength ≠ 0) (hmatch : data.take s.tmpLength = c) :
    (c.length + 2 < (strip data).length →
      (readCycle strip s data).terminalBuffer = (strip data).drop c.length ∧
      (readCycle strip s data).termNeedsUpdate = true) ∧
    ((strip data).length ≤ c.length + 2 →
      (readCycle strip s data).termNeedsUpdate = false ∧
      (readCycle strip s data).terminalBuffer = strip data) ∧
    (readCycle strip s data).enteredCommand = none := by
  rw [readCycle_echo strip s data c hflag he hc hcut hmatch, echoSuppress_spec]
  refine ⟨fun h => ?_, fun h => ?_, rfl⟩
  · rw [if_pos h]
    exact ⟨rfl, rfl⟩
  · rw [if_neg (by omega)]
    exact ⟨rfl, rfl⟩

/-- Claim C2 amended witness: command `a`, read data `abcd`: three
characters remain, so `bcd` is published with the flag set. -/
theorem c2_echo_branch_amended_witness :
    (readCycle remove_escape_codes
      ⟨some ['a'], 1, false, [], false, [], 0, 0, false⟩
      ['a', 'b', 'c', 'd']).terminalBuffer = ['b', 'c', 'd'] ∧
    (readCycle remove_escape_codes
      ⟨some ['a'], 1, false, [], false, [], 0, 0, false⟩
      ['a', 'b', 'c', 'd']).termNeedsUpdate = true := by
  have h := (c2_echo_branch_amended remove_escape_codes
    ⟨some ['a'], 1, false, [], false, [], 0, 0, false⟩
    ['a', 'b', 'c', 'd'] ['a'] rfl rfl (by decide) (by decide) (by decide)).1
    (by decide)
  simpa using h

/-- Claim C9: in the echo branch, the dirty flag is set (and the post-echo
remainder published) exactly when the stripped length exceeds the command
length by strictly more than 2; a remainder of exactly one or two
characters is discarded with no publish, the buffer merely retaining the
stripped text. -/
theorem c9_threshold (strip : List Char → List Char) (s : TtyState)
    (data c : List Char)
    (hflag : s.termNeedsUpdate = false)
    (he : s.enteredCommand = some c) (hc : c ≠ [])
    (hcut : s.tmpLength ≠ 0) (hmatch : data.take s.tmpLength = c) :
    ((readCycle strip s data).termNeedsUpdate = true ↔
      c.length + 2 < (strip data).length) ∧
    ((strip data).length = c.length + 1 ∨ (strip data).length = c.length + 2 →
      (readCycle strip s data).termNeedsUpdate = false ∧
      (readCycle strip s data).terminalBuffer = strip data) := by
  rw [readCycle_echo strip s data c hflag he hc hcut hmatch, echoSuppress_spec]
  constructor
  · by_cases h : c.length + 2 < (strip data).length
    · rw [if_pos h]
      simpa using h
    · rw [if_neg h]
      simpa using h
  · intro h
    rw [if_neg (by omega)]
    exact ⟨rfl, rfl⟩

/-- The interrupt block only emits signal-delivery and flag-clear events. -/
lemma not_mem_interruptEvents (ch : Option (List Int)) :
    LoopEvent.readOutput ∉ interruptEvents ch ∧
    LoopEvent.publishOutput ∉ interruptEvents ch ∧
    LoopEvent.writeCommand ∉ interruptEvents ch ∧
    LoopEvent.clearFlag ∉ interruptEvents ch := by
  cases ch <;> simp [interruptEvents]

/-- Membership in the optional `publishOutput` tail of the read branch. -/
lemma mem_pubIte (e : LoopEvent) (b : Bool) :
    (e ∈ if b = true then [LoopEvent.publishOutput] else []) ↔
      (b = true ∧ e = LoopEvent.publishOutput) := by
  cases b <;> simp

/-- A read cycle never touches `sig_int_sent`. -/
lemma readCycle_sigIntSent (strip : List Char → List Char) (s : TtyState)
    (data : List Char) :
    (readCycle strip s data).sigIntSent = s.sigIntSent := by
  simp only [readCycle]
  split <;> first | rfl | (split <;> rfl)

/-- A read cycle never touches the command-staging fields or the
read/write branch structure's `sig_int_sent`; here: the branch chain
preserves `sig_int_sent`. -/
lemma loopBranch_sigIntSent (strip : List Char → List Char) (si : TtyState)
    (inp : LoopInput) :
    (loopBranch strip si inp).1.sigIntSent = si.sigIntSent := by
  simp only [loopBranch]
  split
  · exact readCycle_sigIntSent strip si inp.readData
  · split <;> rfl

/-- The read/write chain only emits read, publish, and write events. -/
lemma loopBranch_events (strip : List Char → List Char) (si : TtyState)
    (inp : LoopInput) :
    ∀ e ∈ (loopBranch strip si inp).2,
      e = LoopEvent.readOutput ∨ e = LoopEvent.publishOutput ∨
      e = LoopEvent.writeCommand := by
  intro e he
  simp only [loopBranch] at he
  split at he
  · rcases List.mem_append.mp he with h | h
    · simp at h
      exact Or.inl h
    · rw [mem_pubIte] at h
      exact Or.inr (Or.inl h.2)
  · split at he
    · simp at he
      exact Or.inr (Or.inr he)
    · simp at he

/-- Claim C4: when an InterruptRequest is pending and the child enumeration
succeeds, the iteration's trace starts with an interrupt signal to every
enumerated child of the shell, then one to the shell itself, then the
request-flag clear — all strictly before any read or write handling — and
the iteration ends with the request flag cleared. -/
theorem c4_interrupt_first (strip : List Char → List Char) (s : TtyState)
    (inp : LoopInput) (cs : List Int)
    (hsig : s.sigIntSent = true) (hch : inp.children = some cs) :
    (loopIter strip s inp).1.sigIntSent = false ∧
    ∃ rest,
      (loopIter strip s inp).2 =
        (cs.map LoopEvent.killChild ++ [LoopEvent.killShell, LoopEvent.clearInterrupt]) ++ rest ∧
      ∀ e ∈ rest, e = LoopEvent.readOutput ∨ e = LoopEvent.publishOutput ∨
        e = LoopEvent.writeCommand := by
  constructor
  · have h := loopBranch_sigIntSent strip { s with sigIntSent := false } inp
    simp only [loopIter, hsig, if_true]
    simpa using h
  · refine ⟨(loopBranch strip { s with sigIntSent := false } inp).2, ?_,
      loopBranch_events strip { s with sigIntSent := false } inp⟩
    simp [loopIter, hsig, hch, interruptEvents]

/-- Claim C4 witness: a pending interrupt with children 7 and 9 enumerated
is delivered ahead of everything else and the flag is cleared. -/
theorem c4_interrupt_first_witness :
    (loopIter remove_escape_codes
      ⟨none, 0, false, [], false, [], 0, 0, true⟩
      ⟨false, false, [], some [7, 9]⟩).1.sigIntSent = false ∧
    (loopIter remove_escape_codes
      ⟨none, 0, false, [], false, [], 0, 0, true⟩
      ⟨false, false, [], some [7, 9]⟩).2 =
      [LoopEvent.killChild 7, LoopEvent.killChild 9, LoopEvent.killShell,
       LoopEvent.clearInterrupt] :=
  ⟨(c4_interrupt_first remove_escape_codes
      ⟨none, 0, false, [], false, [], 0, 0, true⟩
      ⟨false, false, [], some [7, 9]⟩ [7, 9] rfl rfl).1, by decide⟩

/-- Claim C5: per iteration at most one of the read branch and the
command-send branch runs, the read branch has priority, and a read is never
started while the dirty flag is still set. -/
theorem c5_branch_exclusive (strip : List Char → List Char) (s : TtyState)
    (inp : LoopInput) :
    (¬ (LoopEvent.readOutput ∈ (loopIter strip s inp).2 ∧
        LoopEvent.writeCommand ∈ (loopIter strip s inp).2)) ∧
    (LoopEvent.readOutput ∈ (loopIter strip s inp).2 → s.termNeedsUpdate = false) ∧
    (inp.pollin = true → s.termNeedsUpdate = false →
      LoopEvent.writeCommand ∉ (loopIter strip s inp).2) := by
  obtain ⟨hr, hp, hw, hf⟩ := not_mem_interruptEvents inp.children
  cases hs : s.sigIntSent <;>
    cases hin : inp.pollin <;>
      cases hupd : s.termNeedsUpdate <;>
        cases hout : inp.pollout <;>
          cases hcr : s.commandReady <;>
            simp [loopIter, loopBranch, hs, hin, hupd, hout, hcr, hr, hp, hw, hf,
              mem_pubIte]

/-- Claim C5 witness: with the descriptor both readable and writable, a
staged command ready, and the flag clear, the iteration reads and does not
send. -/
theorem c5_branch_exclusive_witness :
    LoopEvent.writeCommand ∉ (loopIter remove_escape_codes
      ⟨none, 0, false, [], true, ['l'], 1, 0, false⟩
      ⟨true, true, ['p'], none⟩).2 ∧
    (⟨none, 0, false, [], true, ['l'], 1, 0, false⟩ : TtyState).termNeedsUpdate = false :=
  ⟨(c5_branch_exclusive remove_escape_codes
      ⟨none, 0, false, [], true, ['l'], 1, 0, false⟩
      ⟨true, true, ['p'], none⟩).2.2 rfl rfl,
   (c5_branch_exclusive remove_escape_codes
      ⟨none, 0, false, [], true, ['l'], 1, 0, false⟩
      ⟨true, true, ['p'], none⟩).2.1 (by decide)⟩

/-- Claim C7 counterexample: a genuine-output iteration publishes (sets the
dirty flag) without the controller ever clearing the flag: the trace
contains `publishOutput` and no `clearFlag` — `terminal.c` has no statement
assigning `term_needs_update = false`, so the controller cannot be the one
clearing it. -/
theorem c7_counterexample :
    LoopEvent.publishOutput ∈ (loopIter remove_escape_codes
      ⟨none, 0, false, [], false, [], 0, 0, false⟩
      ⟨true, false, ['h', 'i'], none⟩).2 ∧
    LoopEvent.clearFlag ∉ (loopIter remove_escape_codes
      ⟨none, 0, false, [], false, [], 0, 0, false⟩
      ⟨true, false, ['h', 'i'], none⟩).2 := by decide

/-- Claim C7 as amended: the controller NEVER clears the dirty flag (an
iteration entered with the flag set leaves it set and the output buffer
untouched, and no iteration emits a `clearFlag` event); it is the UI
consumer that clears the flag, and the controller publishes new output only
in iterations that begin with the flag already observed false. -/
theorem c7_flag_amended (strip : List Char → List Char) (s : TtyState)
    (inp : LoopInput) :
    (s.termNeedsUpdate = true →
      (loopIter strip s inp).1.termNeedsUpdate = true ∧
      (loopIter strip s inp).1.terminalBuffer = s.terminalBuffer) ∧
    LoopEvent.clearFlag ∉ (loopIter strip s inp).2 ∧
    (LoopEvent.publishOutput ∈ (loopIter strip s inp).2 →
      s.termNeedsUpdate = false) := by
  obtain ⟨hr, hp, hw, hf⟩ := not_mem_interruptEvents inp.children
  cases hs : s.sigIntSent <;>
    cases hin : inp.pollin <;>
      cases hupd : s.termNeedsUpdate <;>
        cases hout : inp.pollout <;>
          cases hcr : s.commandReady <;>
            simp [loopIter, loopBranch, sendCycle, hs, hin, hupd, hout, hcr, hr, hp,
              hw, hf, mem_pubIte]

/-- Claim C7 amended witness: an iteration entered with the flag set leaves
both the flag and the buffer alone, and emits no `clearFlag`. -/
theorem c7_flag_amended_witness :
    (loopIter remove_escape_codes
      ⟨none, 0, true, ['z'], false, [], 0, 0, false⟩
      ⟨true, false, ['q'], none⟩).1.termNeedsUpdate = true ∧
    (loopIter remove_escape_codes
      ⟨none, 0, true, ['z'], false, [], 0, 0, false⟩
      ⟨true, false, ['q'], none⟩).1.terminalBuffer = ['z'] :=
  (c7_flag_amended remove_escape_codes
    ⟨none, 0, true, ['z'], false, [], 0, 0, false⟩
    ⟨true, false, ['q'], none⟩).1 rfl

/-- A read cycle's effect on the echo window is exactly `discardEcho`. -/
lemma readCycle_enteredCommand (strip : List Char → List Char) (s : TtyState)
    (data : List Char) :
    (readCycle strip s data).enteredCommand = discardEcho s.enteredCommand := by
  simp only [readCycle]
  split <;> first | rfl | (split <;> rfl)

/-- Claim C6 counterexample: submitting the empty command (length 0) leaves
`entered_command` a non-NULL empty string, and the read cycle that follows
does NOT discard it — `free` is guarded by `strlen(entered_command) > 0` —
so the EchoWindow survives the read cycle, contradicting "discarded
regardless of branch". -/
theorem c6_counterexample :
    ((loopIter remove_escape_codes
        ⟨none, 0, false, [], true, [], 0, 0, false⟩
        ⟨false, true, [], none⟩).1).enteredCommand = some [] ∧
    LoopEvent.readOutput ∈ (loopIter remove_escape_codes
        ((loopIter remove_escape_codes
            ⟨none, 0, false, [], true, [], 0, 0, false⟩
            ⟨false, true, [], none⟩).1)
        ⟨true, false, ['h', 'i'], none⟩).2 ∧
    ((loopIter remove_escape_codes
        ((loopIter remove_escape_codes
            ⟨none, 0, false, [], true, [], 0, 0, false⟩
            ⟨false, true, [], none⟩).1)
        ⟨true, false, ['h', 'i'], none⟩).1).enteredCommand = some [] := by decide

/-- Claim C6 as amended: after any read cycle the EchoWindow is discarded
(freed and reset to NULL) provided its text is non-empty — so each
non-empty command's echo is matched against at most one subsequent read —
but an EchoWindow holding the empty string is retained, not freed. -/
theorem c6_echo_discard_amended (strip : List Char → List Char) (s : TtyState)
    (data c : List Char) (he : s.enteredCommand = some c) :
    (c ≠ [] → (readCycle strip s data).enteredCommand = none) ∧
    (c = [] → (readCycle strip s data).enteredCommand = some []) := by
  rw [readCycle_enteredCommand, he]
  constructor
  · intro hc
    simp [discardEcho, List.length_pos.mpr hc]
  · intro hc
    subst hc
    simp [discardEcho]

/-- Claim C6 amended witness: a non-empty echo window is discarded by the
read cycle whatever branch it takes. -/
theorem c6_echo_discard_amended_witness :
    (readCycle remove_escape_codes
      ⟨some ['a', 'b'], 2, false, [], false, [], 0, 0, false⟩
      ['z']).enteredCommand = none :=
  (c6_echo_discard_amended remove_escape_codes
    ⟨some ['a', 'b'], 2, false, [], false, [], 0, 0, false⟩
    ['z'] ['a', 'b'] rfl).1 (by decide)

/-- Claim C3 counterexample: with every console-setup step and the thread
creation succeeding but `forkpty` failing, `prepare` still returns true —
the pseudo-terminal allocation and the fork happen on the spawned thread
after `prepare` has already returned, so the caller never receives that
failure. -/
theorem c3_counterexample :
    (prepareRun ⟨true, true, true, true, true, true, false⟩ ⟨K_UNICODE, 0⟩).1 = true ∧
    (⟨true, true, true, true, true, true, false⟩ : PrepareEnv).forkptyOk = false := by
  decide

/-- Claim C3 as amended: `prepare` returns false exactly when the console
setup (tty reopen, the four mode ioctls) or the thread creation fails, and
returns true as soon as the TTY thread is created; the outcome of the
pseudo-terminal allocation / fork, which happens later on that thread, does
not influence the return value. -/
theorem c3_prepare_amended (env : PrepareEnv) (st : ConsoleState) :
    (prepareRun env st).1 =
      (env.openOk && env.kdgkbmodeOk && env.kdskbmodeOk && env.kdgetmodeOk &&
       env.kdsetmodeOk && env.pthreadCreateOk) := by
  obtain ⟨o, kg, ks, mg, ms, pc, fp⟩ := env
  cases o <;> cases kg <;> cases ks <;> cases mg <;> cases ms <;> cases pc <;>
    simp [prepareRun]

/-- Claim C10: if the keyboard mode has already been switched to `K_OFF`
and a later setup step fails (the `KDGETMODE` or `KDSETMODE` ioctl),
`prepare` returns false but leaves the keyboard mode at `K_OFF` instead of
restoring the saved original mode. -/
theorem c10_kb_mode_not_restored (env : PrepareEnv) (st : ConsoleState)
    (h1 : env.openOk = true) (h2 : env.kdgkbmodeOk = true)
    (h3 : env.kdskbmodeOk = true)
    (h4 : env.kdgetmodeOk = false ∨ env.kdsetmodeOk = false) :
    (prepareRun env st).1 = false ∧ (prepareRun env st).2.kbMode = K_OFF := by
  rcases h4 with h4 | h4
  · simp [prepareRun, h1, h2, h3, h4]
  · cases hg : env.kdgetmodeOk <;> simp [prepareRun, h1, h2, h3, h4, hg]

/-- Claim C10 witness: `KDGETMODE` failing after the keyboard was switched
off leaves the keyboard mode at `K_OFF` with `prepare` reporting failure. -/
theorem c10_kb_mode_not_restored_witness :
    (prepareRun ⟨true, true, true, false, true, true, true⟩ ⟨K_UNICODE, 0⟩).1 = false ∧
    (prepareRun ⟨true, true, true, false, true, true, true⟩ ⟨K_UNICODE, 0⟩).2.kbMode = K_OFF :=
  c10_kb_mode_not_restored ⟨true, true, true, false, true, true, true⟩ ⟨K_UNICODE, 0⟩
    rfl rfl rfl (Or.inl rfl)

/-- Claim C9 witness: command `x`, read data `xy`: the single remaining
character is discarded, no publish. -/
theorem c9_threshold_witness :
    (readCycle remove_escape_codes
      ⟨some ['x'], 1, false, [], false, [], 0, 0, false⟩
      ['x', 'y']).termNeedsUpdate = false ∧
    (readCycle remove_escape_codes
      ⟨some ['x'], 1, false, [], false, [], 0, 0, false⟩
      ['x', 'y']).terminalBuffer = remove_escape_codes ['x', 'y'] :=
  (c9_threshold remove_escape_codes
    ⟨some ['x'], 1, false, [], false, [], 0, 0, false⟩
    ['x', 'y'] ['x'] rfl rfl (by decide) (by decide) (by decide)).2
    (by decide)
